import Mathlib

/-
Verification of `python/helpers/pydev/_pydevd_frame_eval/pydevd_frame_eval_cython_wrapper.py`.

The file under study is an import shim executed once at module load time:

  try:
      from _pydevd_frame_eval.pydevd_frame_evaluator import frame_eval_func, stop_frame_eval
  except ImportError:
      try:
          (imports of the struct and sys modules)
          try:
              is_64bits = sys.maxsize > 2**32
          except:
              raise ImportError
          plat = '32'
          if is_64bits:
              plat = '64'
          mod_name = 'pydevd_frame_evaluator_%s_%s%s_%s' % (sys.platform, sys.version_info[0], sys.version_info[1], plat)
          check_name = '_pydevd_frame_eval.%s' % (mod_name,)
          mod = __import__(check_name)
          mod = getattr(mod, mod_name)
          frame_eval_func, stop_frame_eval = mod.frame_eval_func, mod.stop_frame_eval
      except ImportError:
          raise

We embed the module body as a function over an explicit environment describing
the Python runtime: which modules are installed, the host platform string, the
interpreter version digits, and the outcome of the `sys.maxsize` query.  The
observable result of importing the shim is either the final module-level
bindings (on success) or the escaping exception (on failure); Python discards a
module whose body raises, so transient partial bindings are not observable to
the importer, which the embedding reflects by returning `Except`.
-/

namespace PydevdFrameEvalCythonWrapper

/-- Kinds of Python exceptions the shim can raise or observe.  `ImportError`
drives both `except ImportError` clauses; attribute reads on a module object
raise `AttributeError`; `other` stands for any further exception type the
`sys.maxsize` query might raise under an exotic runtime (the bare `except`
catches them all). -/
inductive PyExc where
  | importError : PyExc
  | attributeError : PyExc
  | other : String → PyExc
deriving DecidableEq

/-- A leaf provider module as the shim sees it: each of the two capability
attributes is present (`some` handle) or absent (`none`, so that reading it
raises `AttributeError`, and naming it in a from-import raises `ImportError`).
Function handles are modelled as opaque numeric identifiers. -/
structure LeafModule where
  frame_eval_func : Option Nat
  stop_frame_eval : Option Nat
deriving DecidableEq

/-- The object returned by `__import__` on a dotted name: the top-level
package, queried by `getattr` for the leaf submodule. -/
structure PackageObj where
  getAttr : String → Option LeafModule

/-- The runtime environment the module body executes in.
`defaultModule` is the module named `_pydevd_frame_eval.pydevd_frame_evaluator`
when installed; `maxsizeQuery` is the outcome of evaluating `sys.maxsize`
(`Except.error` when the query raises, as on Jython); `moduleTable` maps a
dotted import name to the package object `__import__` returns, `none` meaning
the import raises `ImportError`. -/
structure Env where
  defaultModule : Option LeafModule
  sys_platform : String
  version_major : Nat
  version_minor : Nat
  maxsizeQuery : Except PyExc Nat
  moduleTable : String → Option PackageObj

/-- The two module-level names the shim binds; `none` means not yet bound. -/
structure Bindings where
  frame_eval_func : Option Nat
  stop_frame_eval : Option Nat
deriving DecidableEq

/-- Pointer-width marker: `plat = '32'; if is_64bits: plat = '64'` with
`is_64bits = sys.maxsize > 2**32`. -/
def widthMarker (maxsize : Nat) : String :=
  if maxsize > 2 ^ 32 then "64" else "32"

/-- The qualified provider name,
`'pydevd_frame_evaluator_%s_%s%s_%s' % (sys.platform, sys.version_info[0], sys.version_info[1], plat)`. -/
def mod_name (platform : String) (major minor : Nat) (plat : String) : String :=
  "pydevd_frame_evaluator_" ++ platform ++ "_" ++ toString major ++ toString minor ++ "_" ++ plat

/-- The package-qualified lookup key, `'_pydevd_frame_eval.%s' % (mod_name,)`. -/
def check_name (modName : String) : String :=
  "_pydevd_frame_eval." ++ modName

/-- The primary path,
`from _pydevd_frame_eval.pydevd_frame_evaluator import frame_eval_func, stop_frame_eval`.
A missing module raises `ImportError`; a from-import binds the requested names
left to right, raising `ImportError` at the first missing one (so a module
supplying only the first symbol leaves a transient partial binding). -/
def primaryFromImport (env : Env) (b : Bindings) : Bindings × Option PyExc :=
  match env.defaultModule with
  | none => (b, some PyExc.importError)
  | some m =>
    match m.frame_eval_func with
    | none => (b, some PyExc.importError)
    | some f =>
      match m.stop_frame_eval with
      | none => ({ b with frame_eval_func := some f }, some PyExc.importError)
      | some s => ({ frame_eval_func := some f, stop_frame_eval := some s }, none)

/-- The body of the inner `try`: bitness query (bare `except` turning any
failure into `ImportError`), qualified-name construction, `__import__`,
`getattr` of the leaf, and the tuple assignment
`frame_eval_func, stop_frame_eval = mod.frame_eval_func, mod.stop_frame_eval`
(the right-hand side is evaluated in full before either name is bound, so the
two reads either both succeed and bind atomically or raise before any
binding). -/
def fallbackBody (env : Env) (b : Bindings) : Bindings × Option PyExc :=
  match env.maxsizeQuery with
  | Except.error _ => (b, some PyExc.importError)
  | Except.ok maxsize =>
    let plat := widthMarker maxsize
    let mn := mod_name env.sys_platform env.version_major env.version_minor plat
    let cn := check_name mn
    match env.moduleTable cn with
    | none => (b, some PyExc.importError)
    | some pkg =>
      match pkg.getAttr mn with
      | none => (b, some PyExc.attributeError)
      | some leaf =>
        match leaf.frame_eval_func with
        | none => (b, some PyExc.attributeError)
        | some f =>
          match leaf.stop_frame_eval with
          | none => (b, some PyExc.attributeError)
          | some s => ({ frame_eval_func := some f, stop_frame_eval := some s }, none)

/-- The whole module body: primary path; on `ImportError` the fallback; the
inner `except ImportError: raise` re-raises unchanged, and any non-ImportError
exception from the fallback propagates past both handlers untouched. -/
def moduleBody (env : Env) : Bindings × Option PyExc :=
  match primaryFromImport env { frame_eval_func := none, stop_frame_eval := none } with
  | (b, none) => (b, none)
  | (b, some PyExc.importError) =>
    match fallbackBody env b with
    | (b2, none) => (b2, none)
    | (b2, some PyExc.importError) => (b2, some PyExc.importError)
    | (b2, some e) => (b2, some e)
  | (b, some e) => (b, some e)

/-- What the importer of the shim observes: the final bindings if the body ran
to completion, otherwise the escaping exception (Python removes a module whose
body raised, so its partial bindings are unobservable). -/
def shimResolve (env : Env) : Except PyExc Bindings :=
  match moduleBody env with
  | (b, none) => Except.ok b
  | (_, some e) => Except.error e

/-- The package-qualified lookup key the fallback path computes, or
`ImportError` when the bitness query fails before the name is ever built. -/
def fallbackKey (env : Env) : Except PyExc String :=
  match env.maxsizeQuery with
  | Except.error _ => Except.error PyExc.importError
  | Except.ok maxsize =>
    Except.ok (check_name (mod_name env.sys_platform env.version_major env.version_minor (widthMarker maxsize)))

/-- A provider leaf module exporting both capability handles. -/
def leafC2 : LeafModule := { frame_eval_func := some 10, stop_frame_eval := some 20 }

/-- The package object for a 64-bit CPython 3.9 Linux install shipping the
qualified provider. -/
def pkgC2 : PackageObj :=
  { getAttr := fun t => if t = "pydevd_frame_evaluator_linux_39_64" then some leafC2 else none }

/-- Environment: 64-bit CPython 3.9 on Linux, default provider absent,
qualified provider installed. -/
def envC2 : Env :=
  { defaultModule := none
    sys_platform := "linux"
    version_major := 3
    version_minor := 9
    maxsizeQuery := Except.ok (2 ^ 63 - 1)
    moduleTable := fun s =>
      if s = "_pydevd_frame_eval.pydevd_frame_evaluator_linux_39_64" then some pkgC2 else none }

/-- C1: on the fallback path, the qualified provider name is exactly the fixed
provider literal followed by an underscore, the platform string, an
underscore, the concatenated major and minor version digits, an underscore and
the pointer-width marker; and the package-qualified lookup key is that name
prefixed with the fixed namespace string. -/
theorem c1_qualified_name_format (platform : String) (major minor maxsize : Nat) :
    mod_name platform major minor (widthMarker maxsize)
      = "pydevd_frame_evaluator" ++ "_" ++ platform ++ "_" ++ toString major ++ toString minor
          ++ "_" ++ widthMarker maxsize
    ∧ check_name (mod_name platform major minor (widthMarker maxsize))
      = "_pydevd_frame_eval." ++ mod_name platform major minor (widthMarker maxsize) := by
  constructor
  · show ("pydevd_frame_evaluator_" ++ platform ++ "_" ++ toString major ++ toString minor
      ++ "_" ++ widthMarker maxsize : String) = _
    rw [show ("pydevd_frame_evaluator_" : String) = "pydevd_frame_evaluator" ++ "_" from rfl]
  · rfl

/-- C2 counterexample: for platform linux, version (3, 9), 64-bit, the lookup
key computed by the code is NOT the string
`_pydevd_frame_eval.pydevd_frame_evaluator_linux_3964` claimed by the spec
(the format string places an underscore between the version digits and the
width marker). -/
theorem c2_spec_key_is_wrong :
    fallbackKey envC2 ≠ Except.ok ("_pydevd_frame_eval.pydevd_frame_evaluator_linux_3964") := by
  intro h
  have h2 : check_name (mod_name ("linux") 3 9 (widthMarker (2 ^ 63 - 1)))
      = "_pydevd_frame_eval.pydevd_frame_evaluator_linux_3964" := by
    exact Except.ok.inj h
  exact absurd h2 (by decide)

/-- C2 amended: for platform linux, version (3, 9), 64-bit, with the
default import failing, the computed lookup key is
`_pydevd_frame_eval.pydevd_frame_evaluator_linux_39_64`, and the fallback
succeeds with both names bound when a provider of that name is installed. -/
theorem c2_linux39_64_key :
    fallbackKey envC2 = Except.ok ("_pydevd_frame_eval.pydevd_frame_evaluator_linux_39_64")
    ∧ shimResolve envC2
        = Except.ok { frame_eval_func := some 10, stop_frame_eval := some 20 } := by
  exact ⟨rfl, rfl⟩

/-- C5: the pointer-width marker is the string 64 exactly when the maximum
representable container size strictly exceeds 2 to the 32, is the string 32
otherwise, and no third value is possible. -/
theorem c5_width_marker (maxsize : Nat) :
    (widthMarker maxsize = "64" ↔ 2 ^ 32 < maxsize)
    ∧ (widthMarker maxsize = "32" ↔ ¬ 2 ^ 32 < maxsize)
    ∧ (widthMarker maxsize = "64" ∨ widthMarker maxsize = "32") := by
  by_cases h : 2 ^ 32 < maxsize
  · have hw : widthMarker maxsize = "64" := by unfold widthMarker; rw [if_pos h]
    rw [hw]
    exact ⟨⟨fun _ => h, fun _ => rfl⟩, ⟨fun hc => absurd hc (by decide), fun hc => absurd h hc⟩,
      Or.inl rfl⟩
  · have hw : widthMarker maxsize = "32" := by unfold widthMarker; rw [if_neg h]
    rw [hw]
    exact ⟨⟨fun hc => absurd hc (by decide), fun hc => absurd hc h⟩, ⟨fun _ => h, fun _ => rfl⟩,
      Or.inr rfl⟩

/-- Environment with the default provider installed and complete, and a
runtime whose maxsize query would raise and whose module table is empty, so
any consultation of either on this environment would be visible. -/
def envC3 : Env :=
  { defaultModule := some { frame_eval_func := some 1, stop_frame_eval := some 2 }
    sys_platform := "linux"
    version_major := 3
    version_minor := 9
    maxsizeQuery := Except.error (PyExc.other ("maxsize query raised"))
    moduleTable := fun _ => none }

/-- Environment whose bitness query raises, but whose module table would
supply a complete provider for any name, so resolution succeeding would
reveal a qualified import attempt. -/
def envC4 : Env :=
  { defaultModule := none
    sys_platform := "win32"
    version_major := 2
    version_minor := 7
    maxsizeQuery := Except.error (PyExc.other ("OverflowError"))
    moduleTable := fun _ =>
      some { getAttr := fun _ => some { frame_eval_func := some 5, stop_frame_eval := some 6 } } }

/-- Environment whose bitness query raises an exception that is itself not an
ImportError. -/
def envC10 : Env :=
  { defaultModule := none
    sys_platform := "linux"
    version_major := 3
    version_minor := 9
    maxsizeQuery := Except.error PyExc.attributeError
    moduleTable := fun _ => none }

/-- C3: when the default provider module imports successfully and supplies
both symbols, resolution finishes with both names bound from it, and the
outcome is independent of the bitness query and of every other installed
module: the fallback path is never entered. -/
theorem c3_default_success_no_fallback (env : Env) (f s : Nat)
    (h : env.defaultModule = some { frame_eval_func := some f, stop_frame_eval := some s }) :
    shimResolve env = Except.ok { frame_eval_func := some f, stop_frame_eval := some s }
    ∧ ∀ q tbl,
        shimResolve { env with maxsizeQuery := q, moduleTable := tbl } = shimResolve env := by
  have h1 : shimResolve env
      = Except.ok { frame_eval_func := some f, stop_frame_eval := some s } := by
    simp [shimResolve, moduleBody, primaryFromImport, h]
  refine ⟨h1, fun q tbl => ?_⟩
  rw [h1]
  simp [shimResolve, moduleBody, primaryFromImport, h]

/-- C3 witness: on a concrete environment with the default provider complete,
resolution binds both names from it regardless of the other components. -/
theorem c3_witness :
    shimResolve envC3 = Except.ok { frame_eval_func := some 1, stop_frame_eval := some 2 }
    ∧ ∀ q tbl,
        shimResolve { envC3 with maxsizeQuery := q, moduleTable := tbl } = shimResolve envC3 :=
  c3_default_success_no_fallback envC3 1 2 rfl

/-- C4: when the default import fails and the maxsize query itself raises, the
shim propagates an ImportError immediately: no qualified name is produced and
the outcome is independent of the module table, so no further import is
attempted. -/
theorem c4_bitness_failure_is_import_error (env : Env) (e : PyExc)
    (hd : env.defaultModule = none) (hq : env.maxsizeQuery = Except.error e) :
    shimResolve env = Except.error PyExc.importError
    ∧ fallbackKey env = Except.error PyExc.importError
    ∧ ∀ tbl, shimResolve { env with moduleTable := tbl } = Except.error PyExc.importError := by
  refine ⟨?_, ?_, fun tbl => ?_⟩ <;>
    simp [shimResolve, moduleBody, primaryFromImport, fallbackBody, fallbackKey, hd, hq]

/-- C4 witness: concrete environment with a raising bitness query; resolution
fails with ImportError even though every module table lookup would succeed. -/
theorem c4_witness :
    shimResolve envC4 = Except.error PyExc.importError
    ∧ fallbackKey envC4 = Except.error PyExc.importError
    ∧ ∀ tbl, shimResolve { envC4 with moduleTable := tbl } = Except.error PyExc.importError :=
  c4_bitness_failure_is_import_error envC4 (PyExc.other ("OverflowError")) rfl rfl

/-- C10: whatever exception the maxsize query raises, the bare except clause
discards it and raises ImportError in its place, so any two environments that
fail the bitness query are observationally identical to the importer. -/
theorem c10_bare_except_discards_exception (env : Env) (e : PyExc)
    (hd : env.defaultModule = none) (hq : env.maxsizeQuery = Except.error e) :
    shimResolve env = Except.error PyExc.importError
    ∧ ∀ env2 e2, env2.defaultModule = none → env2.maxsizeQuery = Except.error e2 →
        shimResolve env2 = shimResolve env := by
  have h1 : ∀ env3 e3, env3.defaultModule = none → env3.maxsizeQuery = Except.error e3 →
      shimResolve env3 = Except.error PyExc.importError := by
    intro env3 e3 hd3 hq3
    simp [shimResolve, moduleBody, primaryFromImport, fallbackBody, hd3, hq3]
  refine ⟨h1 env e hd hq, fun env2 e2 hd2 hq2 => ?_⟩
  rw [h1 env2 e2 hd2 hq2, h1 env e hd hq]

/-- C10 witness: a bitness query raising an AttributeError surfaces to
the importer as an ImportError, indistinguishable from a missing provider. -/
theorem c10_witness :
    shimResolve envC10 = Except.error PyExc.importError
    ∧ ∀ env2 e2, env2.defaultModule = none → env2.maxsizeQuery = Except.error e2 →
        shimResolve env2 = shimResolve envC10 :=
  c10_bare_except_discards_exception envC10 PyExc.attributeError rfl rfl

/-- Environment where both the default and the qualified provider are absent,
and the bitness query succeeds. -/
def envC7 : Env :=
  { defaultModule := none
    sys_platform := "darwin"
    version_major := 3
    version_minor := 8
    maxsizeQuery := Except.ok (2 ^ 63 - 1)
    moduleTable := fun _ => none }

/-- A malformed provider leaf: it exports the first capability but not the
second, so reading the second raises AttributeError. -/
def leafC8 : LeafModule := { frame_eval_func := some 7, stop_frame_eval := none }

/-- Package shipping the malformed provider under the qualified name. -/
def pkgC8 : PackageObj :=
  { getAttr := fun t => if t = "pydevd_frame_evaluator_linux_39_64" then some leafC8 else none }

/-- Environment whose qualified provider imports but lacks one capability. -/
def envC8 : Env :=
  { defaultModule := none
    sys_platform := "linux"
    version_major := 3
    version_minor := 9
    maxsizeQuery := Except.ok (2 ^ 63 - 1)
    moduleTable := fun s =>
      if s = "_pydevd_frame_eval.pydevd_frame_evaluator_linux_39_64" then some pkgC8 else none }

/-- Helper: a primary from-import that runs to completion yields bindings with
both names set. -/
theorem primaryFromImport_ok (env : Env) (b0 b : Bindings)
    (h : primaryFromImport env b0 = (b, none)) :
    ∃ f s, b = { frame_eval_func := some f, stop_frame_eval := some s } := by
  cases hdm : env.defaultModule with
  | none => simp [primaryFromImport, hdm] at h
  | some m =>
    cases hf : m.frame_eval_func with
    | none => simp [primaryFromImport, hdm, hf] at h
    | some f =>
      cases hs : m.stop_frame_eval with
      | none => simp [primaryFromImport, hdm, hf, hs] at h
      | some s =>
        simp [primaryFromImport, hdm, hf, hs] at h
        exact ⟨f, s, h.symm⟩

/-- Helper: a fallback body that runs to completion yields bindings with both
names set. -/
theorem fallbackBody_ok (env : Env) (b0 b : Bindings)
    (h : fallbackBody env b0 = (b, none)) :
    ∃ f s, b = { frame_eval_func := some f, stop_frame_eval := some s } := by
  cases hq : env.maxsizeQuery with
  | error e => simp [fallbackBody, hq] at h
  | ok maxsize =>
    cases hpkg : env.moduleTable (check_name (mod_name env.sys_platform env.version_major
        env.version_minor (widthMarker maxsize))) with
    | none => simp [fallbackBody, hq, hpkg] at h
    | some pkg =>
      cases hleaf : pkg.getAttr (mod_name env.sys_platform env.version_major env.version_minor
          (widthMarker maxsize)) with
      | none => simp [fallbackBody, hq, hpkg, hleaf] at h
      | some leaf =>
        cases hf : leaf.frame_eval_func with
        | none => simp [fallbackBody, hq, hpkg, hleaf, hf] at h
        | some f =>
          cases hs : leaf.stop_frame_eval with
          | none => simp [fallbackBody, hq, hpkg, hleaf, hf, hs] at h
          | some s =>
            simp [fallbackBody, hq, hpkg, hleaf, hf, hs] at h
            exact ⟨f, s, h.symm⟩

/-- Helper: a module body that runs to completion yields bindings with both
names set, whichever path succeeded. -/
theorem moduleBody_ok (env : Env) (b : Bindings)
    (h : moduleBody env = (b, none)) :
    ∃ f s, b = { frame_eval_func := some f, stop_frame_eval := some s } := by
  unfold moduleBody at h
  split at h
  · rename_i b1 heq
    obtain ⟨f, s, hb⟩ := primaryFromImport_ok env _ b1 heq
    exact ⟨f, s, ((congrArg Prod.fst h).symm.trans hb :)⟩
  · rename_i b1 heq
    split at h
    · rename_i b2 heq2
      obtain ⟨f, s, hb⟩ := fallbackBody_ok env b1 b2 heq2
      exact ⟨f, s, ((congrArg Prod.fst h).symm.trans hb :)⟩
    · simp at h
    · simp at h
  · simp at h

/-- C6: the two capability names are bound together or not at all: whenever
the importer observes a successful resolution, both names are bound; on
failure the module is discarded, so no partial binding is observable. -/
theorem c6_no_partial_binding (env : Env) (b : Bindings)
    (h : shimResolve env = Except.ok b) :
    b.frame_eval_func.isSome ∧ b.stop_frame_eval.isSome := by
  unfold shimResolve at h
  split at h
  · rename_i b1 heq
    obtain ⟨f, s, hb⟩ := moduleBody_ok env b1 heq
    rw [← Except.ok.inj h, hb]
    exact ⟨rfl, rfl⟩
  · exact Except.noConfusion h

/-- C6 witness: a concrete successful resolution carries both bindings. -/
theorem c6_witness :
    (Bindings.mk (some 10) (some 20)).frame_eval_func.isSome
    ∧ (Bindings.mk (some 10) (some 20)).stop_frame_eval.isSome :=
  c6_no_partial_binding envC2 (Bindings.mk (some 10) (some 20)) rfl

/-- C7: when the default import fails, any failure of the fallback body is
surfaced to the importer unchanged: nothing is swallowed, no further fallback
runs, and no substitute implementation is bound. -/
theorem c7_fallback_failure_reraised (env : Env) (b2 : Bindings) (e : PyExc)
    (hd : env.defaultModule = none)
    (hf : fallbackBody env { frame_eval_func := none, stop_frame_eval := none }
        = (b2, some e)) :
    shimResolve env = Except.error e := by
  cases e with
  | importError => simp [shimResolve, moduleBody, primaryFromImport, hd, hf]
  | attributeError => simp [shimResolve, moduleBody, primaryFromImport, hd, hf]
  | other msg => simp [shimResolve, moduleBody, primaryFromImport, hd, hf]

/-- C7 witness: with neither provider installed, the fallback import error
reaches the importer as-is. -/
theorem c7_witness : shimResolve envC7 = Except.error PyExc.importError :=
  c7_fallback_failure_reraised envC7 { frame_eval_func := none, stop_frame_eval := none }
    PyExc.importError rfl rfl

/-- C8 counterexample: a qualified provider that imports successfully while
lacking the second capability attribute makes the shim surface an
AttributeError, which is a different error kind than ImportError, refuting the
claim that only one error kind can escape resolution. -/
theorem c8_attribute_error_escapes :
    shimResolve envC8 = Except.error PyExc.attributeError
    ∧ PyExc.attributeError ≠ PyExc.importError :=
  ⟨rfl, by decide⟩

/-- C8 amended: in the enumerated failure cases, namely a missing default
provider combined with either a failing bitness query or a missing qualified
provider, the surfaced error is an ImportError; but when a qualified
provider imports and lacks a capability attribute, an AttributeError escapes
instead. -/
theorem c8_listed_failures_are_import_error (env : Env)
    (hd : env.defaultModule = none)
    (h : (∃ e, env.maxsizeQuery = Except.error e)
       ∨ ∀ m, env.maxsizeQuery = Except.ok m →
           env.moduleTable (check_name (mod_name env.sys_platform env.version_major
             env.version_minor (widthMarker m))) = none) :
    shimResolve env = Except.error PyExc.importError := by
  cases h with
  | inl h =>
    obtain ⟨e, hq⟩ := h
    simp [shimResolve, moduleBody, primaryFromImport, fallbackBody, hd, hq]
  | inr h =>
    cases hq : env.maxsizeQuery with
    | error e => simp [shimResolve, moduleBody, primaryFromImport, fallbackBody, hd, hq]
    | ok m =>
      have htbl := h m hq
      simp [shimResolve, moduleBody, primaryFromImport, fallbackBody, hd, hq, htbl]

/-- C8 amended witness: a failing bitness query with no default provider
surfaces as ImportError. -/
theorem c8_witness : shimResolve envC4 = Except.error PyExc.importError :=
  c8_listed_failures_are_import_error envC4 rfl
    (Or.inl ⟨PyExc.other ("OverflowError"), rfl⟩)

/-- C9: when the default provider is absent and a provider under the computed
qualified key is importable, resolution succeeds: the provider is the
attribute named after the provider name on the object the qualified import
returns, and both capability handles are bound from it. -/
theorem c9_qualified_provider_success (env : Env) (m : Nat) (pkg : PackageObj)
    (leaf : LeafModule) (f s : Nat)
    (hd : env.defaultModule = none)
    (hq : env.maxsizeQuery = Except.ok m)
    (hpkg : env.moduleTable (check_name (mod_name env.sys_platform env.version_major
        env.version_minor (widthMarker m))) = some pkg)
    (hleaf : pkg.getAttr (mod_name env.sys_platform env.version_major env.version_minor
        (widthMarker m)) = some leaf)
    (hf : leaf.frame_eval_func = some f)
    (hs : leaf.stop_frame_eval = some s) :
    shimResolve env = Except.ok { frame_eval_func := some f, stop_frame_eval := some s } := by
  simp [shimResolve, moduleBody, primaryFromImport, fallbackBody, hd, hq, hpkg, hleaf, hf, hs]

/-- C9 witness: on the 64-bit Linux 3.9 environment shipping only the
qualified provider, resolution binds both handles from it. -/
theorem c9_witness :
    shimResolve envC2 = Except.ok { frame_eval_func := some 10, stop_frame_eval := some 20 } :=
  c9_qualified_provider_success envC2 (2 ^ 63 - 1) pkgC2 leafC2 10 20 rfl rfl rfl rfl rfl rfl

end PydevdFrameEvalCythonWrapper
